import Mathlib

/-!
Shallow embedding of the guess-the-number game from `src/main.py` and proofs
about its state machine, scoring, events and persistence.

Python integers are modelled as `Int`; Python `//` is floor division, so it is
modelled as `Int.fdiv`.  The navigation stack of `MainLoop` is a `List` whose
last element is the top (Python `list.append` / `list.pop`).  The random source
and the byte-level persistence (`random.randint`, `pickle`) are external
collaborators: they are parameters constrained by their documented contracts.
-/

namespace Guess

/-- Difficulty tiers (`src/main.py` lines 27-30). -/
inductive Difficulty where
  | EASY
  | MEDIUM
  | HARD
deriving DecidableEq

/-- `DIFFICULTY_SECRET_NUMBER` table (lines 32-36): secret-number upper bound. -/
def DIFFICULTY_SECRET_NUMBER : Difficulty → Int
  | .EASY => 100
  | .MEDIUM => 1000
  | .HARD => 100000

/-- `DIFFICULTY_WIN_SCORE` table (lines 38-42): win-score baseline. -/
def DIFFICULTY_WIN_SCORE : Difficulty → Int
  | .EASY => 10
  | .MEDIUM => 100
  | .HARD => 1000

/-- `GameSettings` dataclass (lines 44-50). -/
structure GameSettings where
  difficulty : Difficulty
deriving DecidableEq

/-- `GameSettings.default()` (lines 48-50). -/
def GameSettings.default : GameSettings := ⟨Difficulty.MEDIUM⟩

/-- `GameReport` dataclass (lines 52-59). -/
structure GameReport where
  guess_count : Int
  score : Int
deriving DecidableEq

/-- `GameReport.default()` (lines 57-59). -/
def GameReport.default : GameReport := ⟨0, 0⟩

/-- `compute_score` (lines 61-62).  Python `//` is floor division (`Int.fdiv`). -/
def compute_score (settings : GameSettings) (report : GameReport) : Int :=
  Int.fdiv (DIFFICULTY_WIN_SCORE settings.difficulty) report.guess_count

/-- `GameAction` enum (lines 302-304). -/
inductive GameAction where
  | GUESS
  | QUIT
deriving DecidableEq

/-- `Player` dataclass (lines 306-313): `action` is `GameAction|None`. -/
structure Player where
  guess : Int
  action : Option GameAction
deriving DecidableEq

/-- `Player.default()` (lines 311-313). -/
def Player.default : Player := ⟨0, none⟩

/-- `GameState` dataclass (lines 315-327). -/
structure GameState where
  secret_number : Int
  player : Player
  settings : GameSettings
  report : GameReport
deriving DecidableEq

/-- `GameState.default()` (lines 322-327). -/
def GameState.default : GameState :=
  ⟨0, Player.default, GameSettings.default, GameReport.default⟩

/-- `GameEvent` hierarchy (lines 293-300): `GuessTooHigh`, `GuessTooLow`,
`PlayerWin(report)`. -/
inductive GameEvent where
  | GuessTooHigh
  | GuessTooLow
  | PlayerWin (report : GameReport)
deriving DecidableEq

/-- States as stack elements, tagged by variant with the data the claims need
(lines 284-630). -/
inductive StateV where
  | mainMenu
  | lobby
  | newGameSetup
  | game (st : GameState)
  | victory (settings : GameSettings) (report : GameReport)
  | credits
deriving DecidableEq

/-- A single stack mutation performed through the `MainLoop` reference:
`pop_state` (line 626) or `push_state` (line 629). -/
inductive StackOp where
  | popOp
  | pushOp (s : StateV)
deriving DecidableEq

/-- The `MainLoop._states` list (line 614); last element is the top. -/
abbrev MainLoop := List StateV

/-- Apply one stack operation: `pop_state` removes the last element
(callers guarantee non-emptiness, spec section 7), `push_state` appends. -/
def applyOp (m : MainLoop) : StackOp → MainLoop
  | .popOp => m.dropLast
  | .pushOp s => m ++ [s]

/-- Apply a sequence of stack operations in order. -/
def applyOps (m : MainLoop) (ops : List StackOp) : MainLoop :=
  ops.foldl applyOp m

/-- Result of `Game._check_guess` (lines 381-389): the updated `GameState`,
the events sent to `controller.on_event`, the events sent to the parent
`_event_handler`, and the stack operations performed, in order. -/
structure CheckResult where
  state : GameState
  controllerEvents : List GameEvent
  handlerEvents : List GameEvent
  stackOps : List StackOp
deriving DecidableEq

/-- `Game._check_guess` (lines 381-389), effects made explicit.  The three
`if` tests on `>`, `<`, `=` are taken verbatim; on a win the report's score is
set first, then `PlayerWin` fires, then `pop_state`, then `push_state(Victory)`. -/
def check_guess (gs : GameState) : CheckResult :=
  let ctrl :=
    (if gs.player.guess > gs.secret_number then [GameEvent.GuessTooHigh] else [])
      ++ (if gs.player.guess < gs.secret_number then [GameEvent.GuessTooLow] else [])
  if gs.player.guess = gs.secret_number then
    let report : GameReport := { gs.report with score := compute_score gs.settings gs.report }
    let gsW : GameState := { gs with report := report }
    { state := gsW
      controllerEvents := ctrl
      handlerEvents := [GameEvent.PlayerWin report]
      stackOps := [StackOp.popOp, StackOp.pushOp (StateV.victory gsW.settings gsW.report)] }
  else
    { state := gs, controllerEvents := ctrl, handlerEvents := [], stackOps := [] }

/-- `Game.save_state` (lines 373-375): overwrite the game file with
`dumps(state)`.  `dumps` abstracts `pickle.dumps` into bytes of type `β`;
the file is `Option β` (`none` = file absent). -/
def save_state {β : Type} (dumps : GameState → β) (gs : GameState) (_fs : Option β) : Option β :=
  some (dumps gs)

/-- `Game.load_state` (lines 377-379): read the game file and apply
`loads` (`pickle.loads`); fails (`none`) when the file is absent. -/
def load_state {β : Type} (loads : β → GameState) (fs : Option β) : Option GameState :=
  fs.map loads

/-- Result of `Game._handle_action`: state, game file, controller events,
handler events, stack operations. -/
structure HandleResult (β : Type) where
  state : GameState
  file : Option β
  controllerEvents : List GameEvent
  handlerEvents : List GameEvent
  stackOps : List StackOp

/-- `Game._handle_action` (lines 364-371).  On `GUESS`: increment
`report.guess_count`, then `_check_guess`; on `QUIT`: `save_state` then
`pop_state`.  The two `if` tests in the source are exclusive because
`player.action` holds a single value and `_check_guess` never sets it to
`QUIT`, so a `match` is faithful. -/
def handle_action {β : Type} (dumps : GameState → β) (gs : GameState) (fs : Option β) :
    HandleResult β :=
  match gs.player.action with
  | some GameAction.GUESS =>
    let gs1 : GameState :=
      { gs with report := { gs.report with guess_count := gs.report.guess_count + 1 } }
    let r := check_guess gs1
    { state := r.state, file := fs, controllerEvents := r.controllerEvents
      handlerEvents := r.handlerEvents, stackOps := r.stackOps }
  | some GameAction.QUIT =>
    { state := gs, file := save_state dumps gs fs, controllerEvents := []
      handlerEvents := [], stackOps := [StackOp.popOp] }
  | none =>
    { state := gs, file := fs, controllerEvents := [], handlerEvents := [], stackOps := [] }

/-- The `Game` object (lines 329-333): its `GameState` plus the `_action`
attribute that `Game.update` (line 360) creates by assignment.  The `Game`
dataclass declares no `_action` field and no code reads it; the player's
pending intent lives at `state.player.action`. -/
structure Game where
  state : GameState
  _action : Option GameAction
deriving DecidableEq

/-- The part of `Game.update` (lines 359-360) that runs before
`controller.update(self)` is invoked: the single assignment
`self._action = None`.  It targets the unused `_action` attribute,
not `self._state.player.action`. -/
def Game.updateClearPhase (g : Game) : Game :=
  { g with _action := none }

/-- `Game.initialize` (lines 351-354), named `initRound` here: reset to the
default state, install the settings, then draw
`randint(0, DIFFICULTY_SECRET_NUMBER[difficulty])`.  `rand` abstracts
`random.randint`. -/
def initRound (settings : GameSettings) (rand : Int → Int → Int) : GameState :=
  let st := GameState.default
  let st1 : GameState := { st with settings := settings }
  { st1 with secret_number := rand 0 (DIFFICULTY_SECRET_NUMBER settings.difficulty) }

/-- The `Victory` state (lines 558-583): settings, report, `_go_next` flag. -/
structure Victory where
  settings : GameSettings
  report : GameReport
  _go_next : Bool
deriving DecidableEq

/-- `Victory.go_next` (lines 573-574). -/
def Victory.go_next (v : Victory) : Victory :=
  { v with _go_next := true }

/-- `Victory.update` (lines 579-583): `controller.update(self)` runs first
(`intent = true` models the controller calling `go_next()`, as
`HumanController.update_Victory` does on any input); then, if `_go_next` is
set, `pop_state`.  Returns the new state and whether the pop happened. -/
def Victory.update (intent : Bool) (v : Victory) : Victory × Bool :=
  let v1 := if intent then v.go_next else v
  (v1, v1._go_next)

/-- The `Credits` state (lines 587-608). -/
structure Credits where
  _go_next : Bool
deriving DecidableEq

/-- `Credits.go_next` (lines 592-593). -/
def Credits.go_next (c : Credits) : Credits :=
  { c with _go_next := true }

/-- `Credits.update` (lines 604-608), same shape as `Victory.update`. -/
def Credits.update (intent : Bool) (c : Credits) : Credits × Bool :=
  let c1 := if intent then c.go_next else c
  (c1, c1._go_next)

/-- `MainMenuAction` enum (lines 516-520). -/
inductive MainMenuAction where
  | NEW_LOBBY
  | LOAD_LOBBY
  | CREDITS
  | QUIT
deriving DecidableEq

/-- `LobbyAction` enum (lines 431-434). -/
inductive LobbyAction where
  | NEW_GAME
  | LOAD_GAME
  | QUIT
deriving DecidableEq

/-- `HumanController._create_main_menu_actions` (lines 107-121); the dict is
modelled as an association list, `savedLobbyExists` models
`SAVED_LOBBY_PATH.exists()`. -/
def create_main_menu_actions (savedLobbyExists : Bool) : List (Nat × MainMenuAction) :=
  if savedLobbyExists then
    [(0, MainMenuAction.LOAD_LOBBY), (1, MainMenuAction.NEW_LOBBY),
     (2, MainMenuAction.CREDITS), (99, MainMenuAction.QUIT)]
  else
    [(0, MainMenuAction.NEW_LOBBY), (2, MainMenuAction.CREDITS), (99, MainMenuAction.QUIT)]

/-- `HumanController._create_lobby_actions` (lines 93-105); `savedGameExists`
models `SAVED_GAME_PATH.exists()`. -/
def create_lobby_actions (savedGameExists : Bool) : List (Nat × LobbyAction) :=
  if savedGameExists then
    [(0, LobbyAction.LOAD_GAME), (1, LobbyAction.NEW_GAME), (99, LobbyAction.QUIT)]
  else
    [(0, LobbyAction.NEW_GAME), (99, LobbyAction.QUIT)]

/-- A concrete winning `GameState`: guess 42 equals the secret 42, four
guesses already counted. -/
def gsWin : GameState :=
  { secret_number := 42
    player := { guess := 42, action := some GameAction.GUESS }
    settings := ⟨Difficulty.MEDIUM⟩
    report := ⟨4, 0⟩ }

/-- The `Victory` element pushed when `gsWin` is checked. -/
def victoryWin : StateV :=
  StateV.victory ⟨Difficulty.MEDIUM⟩ ⟨4, 25⟩

/-- A `Game` entering an update tick with the previous tick's `GUESS` intent
still pending at `state.player.action`. -/
def gStale : Game :=
  { state := { GameState.default with player := { guess := 7, action := some GameAction.GUESS } }
    _action := some GameAction.GUESS }

/-- A `Victory` whose go-next flag is not yet set. -/
def v0 : Victory :=
  { settings := ⟨Difficulty.MEDIUM⟩, report := ⟨1, 100⟩, _go_next := false }

/-- C1: for every difficulty `d` and every guess count `n >= 1`, the score on
the winning guess equals `winScoreBaseline(d)` integer-divided by `n`
(truncating division, which agrees with the source's floor division on these
non-negative operands); in particular Medium (baseline 100) won on the 4th
guess scores 25. -/
theorem score_eq_baseline_tdiv (d : Difficulty) (n s : Int) (h : 1 ≤ n) :
    compute_score ⟨d⟩ ⟨n, s⟩ = Int.tdiv (DIFFICULTY_WIN_SCORE d) n ∧
    compute_score ⟨Difficulty.MEDIUM⟩ ⟨4, 0⟩ = 25 := by
  refine ⟨?_, by decide⟩
  have hb : (0 : Int) ≤ DIFFICULTY_WIN_SCORE d := by cases d <;> decide
  have hn : (0 : Int) ≤ n := le_trans (by decide) h
  show Int.fdiv (DIFFICULTY_WIN_SCORE d) n = Int.tdiv (DIFFICULTY_WIN_SCORE d) n
  rw [Int.fdiv_eq_ediv _ hn, Int.tdiv_eq_ediv hb hn]

/-- Witness for C1 at difficulty Medium and guess count 4. -/
theorem score_eq_baseline_tdiv_witness :
    (1 : Int) ≤ 4 ∧
    (compute_score ⟨Difficulty.MEDIUM⟩ ⟨4, 0⟩ = Int.tdiv (DIFFICULTY_WIN_SCORE Difficulty.MEDIUM) 4 ∧
     compute_score ⟨Difficulty.MEDIUM⟩ ⟨4, 0⟩ = 25) :=
  ⟨by decide, score_eq_baseline_tdiv Difficulty.MEDIUM 4 0 (by decide)⟩

/-- C2: `Game.update` line 360 assigns `None` to the unused `_action`
attribute instead of clearing `state.player.action`, so a pending `GUESS`
intent from the previous tick is still set when `controller.update` is
invoked, contrary to the documented clearing of the player intent. -/
theorem update_clear_leaves_player_intent :
    (Game.updateClearPhase gStale)._action = none ∧
    (Game.updateClearPhase gStale).state.player.action = some GameAction.GUESS :=
  ⟨rfl, rfl⟩

/-- C3 counterexample: a `Victory` whose flag is unset receives an intent
during an update; the flag becomes set and the state pops itself in that same
update tick, not on the following one as claimed. -/
theorem victory_pops_in_same_tick :
    v0._go_next = false ∧
    (Victory.update true v0).1._go_next = true ∧
    (Victory.update true v0).2 = true :=
  ⟨rfl, rfl, rfl⟩

/-- C3 amended: for Victory and Credits, an intent during an update sets the
one-shot go-next flag and the state pops itself in the same update tick in
which the flag becomes set (the controller runs before the pop check); once
set, it also pops on every subsequent update. -/
theorem go_next_pops_same_tick (v : Victory) (c : Credits) (intent : Bool) :
    (Victory.update intent v).1._go_next = (v._go_next || intent) ∧
    (Victory.update intent v).2 = (v._go_next || intent) ∧
    (Credits.update intent c).1._go_next = (c._go_next || intent) ∧
    (Credits.update intent c).2 = (c._go_next || intent) := by
  cases intent <;>
    simp [Victory.update, Victory.go_next, Credits.update, Credits.go_next]

/-- C4 counterexample: on the winning guess the code performs `pop_state`
first and `push_state(Victory)` second (lines 388-389), not a Victory push
followed by a Game pop. -/
theorem win_ops_not_push_then_pop :
    (check_guess gsWin).stackOps = [StackOp.popOp, StackOp.pushOp victoryWin] ∧
    (check_guess gsWin).stackOps ≠ [StackOp.pushOp victoryWin, StackOp.popOp] := by
  decide

/-- C4 amended: processing a winning guess performs exactly one pop followed
by exactly one Victory push, in that order (Game popped, then Victory
pushed); applied to a stack whose top is the running Game, the Game is
replaced by the Victory and the stack depth is unchanged. -/
theorem win_pop_then_push (gs : GameState) (front : MainLoop)
    (hwin : gs.player.guess = gs.secret_number) :
    (check_guess gs).stackOps =
      [StackOp.popOp,
       StackOp.pushOp (StateV.victory gs.settings
         { gs.report with score := compute_score gs.settings gs.report })] ∧
    applyOps (front ++ [StateV.game gs]) (check_guess gs).stackOps =
      front ++ [StateV.victory gs.settings
        { gs.report with score := compute_score gs.settings gs.report }] ∧
    (applyOps (front ++ [StateV.game gs]) (check_guess gs).stackOps).length =
      (front ++ [StateV.game gs]).length := by
  have hops : (check_guess gs).stackOps =
      [StackOp.popOp,
       StackOp.pushOp (StateV.victory gs.settings
         { gs.report with score := compute_score gs.settings gs.report })] := by
    simp [check_guess, hwin]
  refine ⟨hops, ?_, ?_⟩ <;>
    simp [hops, applyOps, applyOp, List.dropLast_concat]

/-- Witness for C4 at the winning state `gsWin` over a two-element stack. -/
theorem win_pop_then_push_witness :
    gsWin.player.guess = gsWin.secret_number ∧
    ((check_guess gsWin).stackOps =
      [StackOp.popOp,
       StackOp.pushOp (StateV.victory gsWin.settings
         { gsWin.report with score := compute_score gsWin.settings gsWin.report })] ∧
     applyOps ([StateV.mainMenu, StateV.lobby] ++ [StateV.game gsWin]) (check_guess gsWin).stackOps =
       [StateV.mainMenu, StateV.lobby] ++ [StateV.victory gsWin.settings
         { gsWin.report with score := compute_score gsWin.settings gsWin.report }] ∧
     (applyOps ([StateV.mainMenu, StateV.lobby] ++ [StateV.game gsWin]) (check_guess gsWin).stackOps).length =
       ([StateV.mainMenu, StateV.lobby] ++ [StateV.game gsWin]).length) :=
  ⟨rfl, win_pop_then_push gsWin [StateV.mainMenu, StateV.lobby] rfl⟩

/-- C5: per Guess intent exactly one of the three notices fires, and they are
mutually exclusive: too high exactly when the guess exceeds the secret, too
low exactly when it is below, and the win notification (`PlayerWin` to the
parent handler) exactly on equality. -/
theorem one_notice_per_guess (gs : GameState) :
    ((check_guess gs).controllerEvents ++ (check_guess gs).handlerEvents).length = 1 ∧
    (gs.player.guess > gs.secret_number ↔
       (check_guess gs).controllerEvents = [GameEvent.GuessTooHigh] ∧
       (check_guess gs).handlerEvents = []) ∧
    (gs.player.guess < gs.secret_number ↔
       (check_guess gs).controllerEvents = [GameEvent.GuessTooLow] ∧
       (check_guess gs).handlerEvents = []) ∧
    (gs.player.guess = gs.secret_number ↔
       (check_guess gs).controllerEvents = [] ∧
       (check_guess gs).handlerEvents =
         [GameEvent.PlayerWin { gs.report with score := compute_score gs.settings gs.report }]) := by
  rcases lt_trichotomy gs.player.guess gs.secret_number with h | h | h
  · simp [check_guess, h, h.ne, lt_asymm h, not_lt_of_gt h]
  · simp [check_guess, h, lt_irrefl]
  · simp [check_guess, h, (h.ne).symm, lt_asymm h, not_lt_of_gt h]

/-- C6: for every difficulty, the secret number drawn at round start lies in
`[0, bound(d)]` inclusive, where the bound table is Easy 100, Medium 1000,
Hard 100000.  `rand` is any function meeting `random.randint`'s contract:
an integer in `[a, b]` whenever `a <= b`. -/
theorem secret_in_range (settings : GameSettings) (rand : Int → Int → Int)
    (hrand : ∀ a b : Int, a ≤ b → a ≤ rand a b ∧ rand a b ≤ b) :
    (0 ≤ (initRound settings rand).secret_number ∧
     (initRound settings rand).secret_number ≤ DIFFICULTY_SECRET_NUMBER settings.difficulty) ∧
    DIFFICULTY_SECRET_NUMBER Difficulty.EASY = 100 ∧
    DIFFICULTY_SECRET_NUMBER Difficulty.MEDIUM = 1000 ∧
    DIFFICULTY_SECRET_NUMBER Difficulty.HARD = 100000 := by
  have hb : (0 : Int) ≤ DIFFICULTY_SECRET_NUMBER settings.difficulty := by
    cases settings with
    | mk d => cases d <;> decide
  exact ⟨hrand 0 _ hb, rfl, rfl, rfl⟩

/-- Witness for C6: the least-value draw at difficulty Easy. -/
theorem secret_in_range_witness :
    (∀ a b : Int, a ≤ b → a ≤ (fun x _ => x) a b ∧ (fun x _ => x) a b ≤ b) ∧
    ((0 ≤ (initRound ⟨Difficulty.EASY⟩ (fun x _ => x)).secret_number ∧
      (initRound ⟨Difficulty.EASY⟩ (fun x _ => x)).secret_number ≤
        DIFFICULTY_SECRET_NUMBER (⟨Difficulty.EASY⟩ : GameSettings).difficulty) ∧
     DIFFICULTY_SECRET_NUMBER Difficulty.EASY = 100 ∧
     DIFFICULTY_SECRET_NUMBER Difficulty.MEDIUM = 1000 ∧
     DIFFICULTY_SECRET_NUMBER Difficulty.HARD = 100000) :=
  ⟨fun a _ h => ⟨le_refl a, h⟩,
   secret_in_range ⟨Difficulty.EASY⟩ (fun x _ => x) (fun a _ h => ⟨le_refl a, h⟩)⟩

/-- C7: for every `GameState`, loading immediately after saving restores an
equal `GameState` (so `secret_number`, `settings.difficulty`, `guess_count`
and `score` are identical), given `pickle`'s round-trip contract
`loads(dumps(s)) = s`. -/
theorem save_load_roundtrip {β : Type} (dumps : GameState → β) (loads : β → GameState)
    (hround : ∀ st : GameState, loads (dumps st) = st) (gs : GameState) (fs : Option β) :
    load_state loads (save_state dumps gs fs) = some gs := by
  simp [load_state, save_state, hround]

/-- Witness for C7 with the identity byte encoding at `gsWin`. -/
theorem save_load_roundtrip_witness :
    (∀ st : GameState, (fun x : GameState => x) ((fun x : GameState => x) st) = st) ∧
    load_state (fun x : GameState => x)
      (save_state (fun x : GameState => x) gsWin none) = some gsWin :=
  ⟨fun _ => rfl,
   save_load_roundtrip (fun x : GameState => x) (fun x : GameState => x) (fun _ => rfl) gsWin none⟩

/-- C8: the main-menu action set contains Load Lobby exactly when a lobby
snapshot exists, and the lobby action set contains Load Game exactly when a
game snapshot exists. -/
theorem load_option_iff_snapshot (savedLobby savedGame : Bool) :
    (MainMenuAction.LOAD_LOBBY ∈ (create_main_menu_actions savedLobby).map Prod.snd ↔
       savedLobby = true) ∧
    (LobbyAction.LOAD_GAME ∈ (create_lobby_actions savedGame).map Prod.snd ↔
       savedGame = true) := by
  cases savedLobby <;> cases savedGame <;> decide

/-- C9: when a Guess intent is handled from any state whose report has a
non-negative guess count (fresh rounds start at 0 and every reachable count
is an increment of such a state or a reloaded saved one), the count is
incremented before any score computation, so the divisor used on a winning
guess is `guess_count + 1 >= 1` and never zero. -/
theorem score_divisor_positive {β : Type} (dumps : GameState → β) (gs : GameState)
    (fs : Option β) (hact : gs.player.action = some GameAction.GUESS)
    (hcnt : 0 ≤ gs.report.guess_count) :
    (handle_action dumps gs fs).state.report.guess_count = gs.report.guess_count + 1 ∧
    1 ≤ (handle_action dumps gs fs).state.report.guess_count ∧
    (gs.player.guess = gs.secret_number →
       (handle_action dumps gs fs).state.report.score =
         Int.fdiv (DIFFICULTY_WIN_SCORE gs.settings.difficulty) (gs.report.guess_count + 1)) ∧
    GameState.default.report.guess_count = 0 := by
  by_cases hwin : gs.player.guess = gs.secret_number
  · refine ⟨?_, ?_, ?_, rfl⟩ <;>
      simp [handle_action, hact, check_guess, hwin, compute_score]
    omega
  · refine ⟨?_, ?_, ?_, rfl⟩ <;>
      simp [handle_action, hact, check_guess, hwin]
    omega

/-- Witness for C9: a first winning guess at difficulty Medium. -/
theorem score_divisor_positive_witness :
    gsWin.player.action = some GameAction.GUESS ∧
    0 ≤ gsWin.report.guess_count ∧
    ((handle_action (fun _ => true) gsWin none).state.report.guess_count =
       gsWin.report.guess_count + 1 ∧
     1 ≤ (handle_action (fun _ => true) gsWin none).state.report.guess_count ∧
     (gsWin.player.guess = gsWin.secret_number →
        (handle_action (fun _ => true) gsWin none).state.report.score =
          Int.fdiv (DIFFICULTY_WIN_SCORE gsWin.settings.difficulty)
            (gsWin.report.guess_count + 1)) ∧
     GameState.default.report.guess_count = 0) :=
  ⟨rfl, by decide,
   score_divisor_positive (fun _ => true) gsWin none rfl (by decide)⟩

/-- C10: `Game._handle_action` writes the game save file exactly when the
intent is Quit; handling a Guess intent (including a winning one, with its
score computation, win event, pop and Victory push) leaves the file
untouched. -/
theorem guess_never_writes_save {β : Type} (dumps : GameState → β) (gs : GameState)
    (fs : Option β) :
    (handle_action dumps gs fs).file =
      (if gs.player.action = some GameAction.QUIT then some (dumps gs) else fs) := by
  cases hact : gs.player.action with
  | none => simp [handle_action, hact]
  | some a => cases a <;> simp [handle_action, hact, save_state]

end Guess
